import Mathlib

/-!
Verification of the error taxonomy and boundary conversions of the
rusty-celery task-queue library, together with spec-modelled components
(task registry, envelope codec, execution engine acknowledgment paths)
whose implementations are not part of the provided sources.

The Rust source embedded here is src/src/error.rs.
-/

namespace RustyCelery

/-- Modelled external type: the kinds of std/tokio I/O errors
(tokio::io::ErrorKind).  Only a representative set of variants is listed;
the library never matches on individual I/O kinds, it only stores them. -/
inductive IoErrKind
  | notFound
  | permissionDenied
  | connectionRefused
  | connectionReset
  | brokenPipe
  | wouldBlock
  | timedOut
  | other
  deriving DecidableEq, Repr

/-- Modelled external type: the broker-client transport error
(lapin::Error).  The three variants matched by name in
src/src/error.rs lines 135-137 (NotConnected, ConnectionRefused,
IOError) are load-bearing; the remaining variants stand for every other
lapin error, all of which fall to the wildcard arm of the match. -/
inductive LapinError
  | NotConnected
  | ConnectionRefused
  | IOError (k : IoErrKind)
  | ProtocolError
  | InvalidChannel
  | UnexpectedReply
  | ParsingError
  | SerialisationError
  deriving DecidableEq, Repr

/-- Modelled external type: the category of a serde_json error. -/
inductive SerdeCategory
  | inputFault
  | grammarFault
  | dataFault
  | eofFault
  deriving DecidableEq, Repr

/-- Modelled external type: a serialization error (serde_json::Error),
carrying a position and a category. -/
structure SerdeJsonError where
  line : Nat
  column : Nat
  category : SerdeCategory
  deriving DecidableEq, Repr

/-- Modelled external type: a glob compilation error (globset::Error).
Its glob field is the offending pattern text when the error is
associated with a pattern (globset::Error::glob returns an Option). -/
structure GlobsetError where
  glob : Option String
  message : String
  deriving DecidableEq, Repr

/-- Modelled external type: a tokio I/O error (tokio::io::Error); the
library only ever reads its kind. -/
structure TokioIoError where
  kind : IoErrKind
  deriving DecidableEq, Repr

/-- Modelled external type: the timeout signal (tokio::time::Elapsed),
a unit-like value carrying no data. -/
structure Elapsed where
  deriving DecidableEq, Repr

/-- Modelled external type: failure::Context, which wraps a context
value (the library reads it back via get_context). -/
structure Context (α : Type) where
  context : α
  deriving DecidableEq, Repr

/-- failure::Context::new. -/
def Context.new {α : Type} (a : α) : Context α := ⟨a⟩

/-- failure::Context::get_context. -/
def Context.get_context {α : Type} (c : Context α) : α := c.context

/-- The ErrorKind enum of src/src/error.rs lines 13-82, one constructor
per Rust variant, fields embedding the Rust field types (external
library types via their models above). -/
inductive ErrorKind
  | TaskAlreadyExists (name : String)
  | UnregisteredTaskError (name : String)
  | AMQPError (err : Option LapinError)
  | InvalidBrokerUrl (url : String)
  | SerializationError (err : SerdeJsonError)
  | AMQPMessageParseError (msg : String)
  | UnknownQueueError (queue : String)
  | ExpectedError (msg : String)
  | UnexpectedError (msg : String)
  | TaskExpiredError
  | Retry
  | SyncError
  | IoError (k : IoErrKind)
  | ForcedShutdown
  | TimeoutError
  | BadRoutingRulePatternError (pattern : Option String)
  | BrokerConnectionError
  deriving DecidableEq, Repr

/-- The Error struct of src/src/error.rs lines 7-9: a wrapped
Context over an ErrorKind. -/
structure Error where
  inner : Context ErrorKind
  deriving DecidableEq, Repr

/-- Error::kind (src/src/error.rs lines 102-104). -/
def Error.kind (e : Error) : ErrorKind := e.inner.get_context

/-- impl From of ErrorKind for Error (src/src/error.rs lines 107-113). -/
def Error.fromErrorKind (kind : ErrorKind) : Error :=
  { inner := Context.new kind }

/-- impl From of Context ErrorKind for Error (src/src/error.rs
lines 115-119). -/
def Error.fromContextKind (inner : Context ErrorKind) : Error :=
  { inner := inner }

/-- impl From of Context over a string slice for Error
(src/src/error.rs lines 121-129): always UnexpectedError carrying the
context string. -/
def Error.fromContextStr (inner : Context String) : Error :=
  { inner := Context.new (ErrorKind.UnexpectedError inner.get_context) }

/-- impl From of lapin::Error for Error (src/src/error.rs
lines 131-142): NotConnected, ConnectionRefused and IOError map to
BrokerConnectionError; everything else to AMQPError carrying the
original error. -/
def Error.fromLapin (err : LapinError) : Error :=
  { inner := Context.new (match err with
      | LapinError.NotConnected => ErrorKind.BrokerConnectionError
      | LapinError.ConnectionRefused => ErrorKind.BrokerConnectionError
      | LapinError.IOError _ => ErrorKind.BrokerConnectionError
      | _ => ErrorKind.AMQPError (some err)) }

/-- impl From of serde_json::Error for Error (src/src/error.rs
lines 144-150). -/
def Error.fromSerdeJson (err : SerdeJsonError) : Error :=
  { inner := Context.new (ErrorKind.SerializationError err) }

/-- impl From of tokio::io::Error for Error (src/src/error.rs
lines 152-158). -/
def Error.fromTokioIo (err : TokioIoError) : Error :=
  { inner := Context.new (ErrorKind.IoError err.kind) }

/-- impl From of tokio::time::Elapsed for Error (src/src/error.rs
lines 160-166). -/
def Error.fromElapsed (_err : Elapsed) : Error :=
  { inner := Context.new ErrorKind.TimeoutError }

/-- impl From of globset::Error for Error (src/src/error.rs
lines 168-176): BadRoutingRulePatternError carrying the offending
pattern text when available. -/
def Error.fromGlobset (_err : GlobsetError) : Error :=
  { inner := Context.new (ErrorKind.BadRoutingRulePatternError
      (_err.glob.map (fun s => s))) }

/-- Whether an ErrorKind variant carries a field whose type is owned by
an external library, read off the Rust declaration: AMQPError carries
Option of lapin::Error (line 24), SerializationError carries
serde_json::Error (line 32), IoError carries tokio::io::ErrorKind
(line 65); every other variant carries only plain strings or nothing. -/
def ErrorKind.carriesExternalType : ErrorKind → Bool
  | ErrorKind.AMQPError _ => true
  | ErrorKind.SerializationError _ => true
  | ErrorKind.IoError _ => true
  | _ => false

/-- Modelled from the spec: the outcome of a task handler invocation
(success, expected failure, unexpected failure, explicit retry signal,
or timeout after the deadline elapsed), per section 4.5 of the spec;
the handler implementations are not part of the provided sources. -/
inductive HandlerOutcome
  | success
  | expectedErr (msg : String)
  | unexpectedErr (msg : String)
  | retrySignal
  | timedOut
  deriving DecidableEq, Repr

/-- Modelled from the spec: the logical envelope schema of section 6
(id, task, args, queue, retries, expires_at, eta, correlation_id); the
envelope type itself is not part of the provided sources. -/
structure Envelope where
  id : String
  task : String
  args : List Nat
  queue : String
  retries : Nat
  expiresAt : Option Nat
  eta : Option Nat
  correlationId : String
  deriving DecidableEq, Repr

/-- Modelled from the spec: a task execution policy (max retries,
backoff as a function of attempt number, default timeout and expiration
horizon), per the Task Definition data model of section 3; the policy
type is not part of the provided sources. -/
structure TaskPolicy where
  maxRetries : Nat
  backoff : Nat → Nat
  timeout : Option Nat
  expiresAfter : Option Nat

/-- Modelled from the spec: a registered task definition pairing a
handler capability with its policy (section 3); not part of the
provided sources. -/
structure TaskDef where
  handler : List Nat → HandlerOutcome
  policy : TaskPolicy

/-- Modelled from the spec: the task registry, a map from task name to
task definition (section 4.1); not part of the provided sources. -/
def Registry : Type := List (String × TaskDef)

/-- Modelled from the spec: register(name, handler, policy) fails with
TaskAlreadyExists if the name is taken, otherwise adds the entry
(section 4.1); not part of the provided sources. -/
def Registry.register (r : Registry) (name : String) (d : TaskDef) :
    Except Error Registry :=
  match List.lookup name r with
  | some _ => Except.error (Error.fromErrorKind (ErrorKind.TaskAlreadyExists name))
  | none => Except.ok ((name, d) :: r)

/-- Modelled from the spec: lookup(name) returns the handler and policy
or fails with UnregisteredTaskError (section 4.1); not part of the
provided sources. -/
def Registry.lookupTask (r : Registry) (name : String) : Except Error TaskDef :=
  match List.lookup name r with
  | some d => Except.ok d
  | none => Except.error (Error.fromErrorKind (ErrorKind.UnregisteredTaskError name))

/-- Modelled from the spec: a field value of the logical envelope wire
form (the concrete byte format is out of scope; section 6 fixes only
the logical schema, with null standing for an absent optional field). -/
inductive WireValue
  | str (s : String)
  | bytes (bs : List Nat)
  | nat (n : Nat)
  | null
  deriving DecidableEq, Repr

/-- Modelled from the spec: the envelope codec's encode direction,
mapping an envelope to its logical wire fields (section 4.2, section 6);
the codec implementation is not part of the provided sources. -/
def encode (e : Envelope) : List (String × WireValue) :=
  [ ("id", WireValue.str e.id)
  , ("task", WireValue.str e.task)
  , ("args", WireValue.bytes e.args)
  , ("queue", WireValue.str e.queue)
  , ("retries", WireValue.nat e.retries)
  , ("expires_at", match e.expiresAt with
      | some t => WireValue.nat t
      | none => WireValue.null)
  , ("eta", match e.eta with
      | some t => WireValue.nat t
      | none => WireValue.null)
  , ("correlation_id", WireValue.str e.correlationId) ]

/-- Read a required string field from the wire form. -/
def getStr (fields : List (String × WireValue)) (key : String) : Option String :=
  match List.lookup key fields with
  | some (WireValue.str s) => some s
  | _ => none

/-- Read a required bytes field from the wire form. -/
def getBytes (fields : List (String × WireValue)) (key : String) : Option (List Nat) :=
  match List.lookup key fields with
  | some (WireValue.bytes bs) => some bs
  | _ => none

/-- Read a required unsigned-integer field from the wire form. -/
def getNat (fields : List (String × WireValue)) (key : String) : Option Nat :=
  match List.lookup key fields with
  | some (WireValue.nat n) => some n
  | _ => none

/-- Read an optional timestamp field from the wire form (null means
absent). -/
def getOptNat (fields : List (String × WireValue)) (key : String) :
    Option (Option Nat) :=
  match List.lookup key fields with
  | some (WireValue.nat n) => some (some n)
  | some WireValue.null => some none
  | _ => none

/-- Modelled from the spec: the envelope codec's decode direction,
failing on structurally invalid input (missing or ill-typed required
fields) and otherwise reconstructing the envelope (section 4.2); the
codec implementation is not part of the provided sources. -/
def decode (fields : List (String × WireValue)) : Option Envelope := do
  let id ← getStr fields "id"
  let task ← getStr fields "task"
  let args ← getBytes fields "args"
  let queue ← getStr fields "queue"
  let retries ← getNat fields "retries"
  let expiresAt ← getOptNat fields "expires_at"
  let eta ← getOptNat fields "eta"
  let correlationId ← getStr fields "correlation_id"
  pure ⟨id, task, args, queue, retries, expiresAt, eta, correlationId⟩

/-- Modelled from the spec: a broker-facing action the execution engine
issues for a delivery: ack(tag), nack(tag, requeue) or a re-publish of
a retry envelope (sections 4.4 and 4.5); not part of the provided
sources. -/
inductive BrokerAction
  | ack (tag : Nat)
  | nack (tag : Nat) (requeue : Bool)
  | publish (queue : String) (env : Envelope)
  deriving DecidableEq, Repr

/-- Modelled from the spec: the retry path builds a new envelope with
the retry count incremented and a fresh eta reflecting the backoff
delay (section 4.5); not part of the provided sources. -/
def retryEnvelope (now : Nat) (env : Envelope) (policy : TaskPolicy) : Envelope :=
  { env with
      retries := env.retries + 1
      eta := some (now + policy.backoff (env.retries + 1)) }

/-- Modelled from the spec: whether the envelope's expiry timestamp is
in the past at dispatch time (section 4.5); not part of the provided
sources. -/
def Envelope.expired (env : Envelope) (now : Nat) : Bool :=
  match env.expiresAt with
  | some t => t < now
  | none => false

/-- Modelled from the spec: the execution engine's per-envelope
resolution (section 4.5), yielding the list of broker actions issued
for a delivery with the given tag.  An expired envelope is nacked
without requeue before dispatch; an unregistered task is nacked without
requeue; a forced shutdown nacks with requeue; a successful handler is
acked; a failing, retry-signalling or timed-out handler is acked and
re-published as a fresh retry envelope while the retry budget lasts,
and nacked without requeue once the budget is exhausted.  The engine
implementation is not part of the provided sources. -/
def runEnvelope (now : Nat) (tag : Nat) (registered : Bool) (forced : Bool)
    (env : Envelope) (policy : TaskPolicy) (out : HandlerOutcome) :
    List BrokerAction :=
  if env.expired now then
    [BrokerAction.nack tag false]
  else if !registered then
    [BrokerAction.nack tag false]
  else if forced then
    [BrokerAction.nack tag true]
  else
    match out with
    | HandlerOutcome.success => [BrokerAction.ack tag]
    | _ =>
      if env.retries < policy.maxRetries then
        [ BrokerAction.ack tag
        , BrokerAction.publish env.queue (retryEnvelope now env policy) ]
      else
        [BrokerAction.nack tag false]

/-- The number of acknowledgments (ack or nack) issued on a given
delivery tag within a list of broker actions. -/
def countAckNack (tag : Nat) (actions : List BrokerAction) : Nat :=
  actions.countP (fun a =>
    match a with
    | BrokerAction.ack t => t == tag
    | BrokerAction.nack t _ => t == tag
    | BrokerAction.publish _ _ => false)

/-- A sample task definition, used to instantiate registry statements at
concrete inputs. -/
def sampleTaskDef : TaskDef :=
  { handler := fun _ => HandlerOutcome.success
  , policy :=
    { maxRetries := 3
    , backoff := fun n => n * 10
    , timeout := some 100
    , expiresAfter := none } }

/-- Claim C1: every lapin transport error converted into the library's
Error maps NotConnected, ConnectionRefused and IOError to the
BrokerConnectionError kind, and every other lapin error to the
AMQPError kind carrying the original error; no lapin error maps to any
other kind. -/
theorem lapin_error_mapping (e : LapinError) :
    ((e = LapinError.NotConnected ∨ e = LapinError.ConnectionRefused ∨
        (∃ k, e = LapinError.IOError k)) →
      (Error.fromLapin e).kind = ErrorKind.BrokerConnectionError) ∧
    ((e ≠ LapinError.NotConnected ∧ e ≠ LapinError.ConnectionRefused ∧
        (∀ k, e ≠ LapinError.IOError k)) →
      (Error.fromLapin e).kind = ErrorKind.AMQPError (some e)) := by
  cases e <;>
    simp [Error.fromLapin, Error.kind, Context.get_context, Context.new]

/-- Witness for C1: the mapping evaluated at a connection-class error
and at a protocol-class error. -/
theorem lapin_error_mapping_witness :
    (Error.fromLapin LapinError.NotConnected).kind =
      ErrorKind.BrokerConnectionError ∧
    (Error.fromLapin LapinError.ProtocolError).kind =
      ErrorKind.AMQPError (some LapinError.ProtocolError) :=
  ⟨(lapin_error_mapping LapinError.NotConnected).1 (Or.inl rfl),
   (lapin_error_mapping LapinError.ProtocolError).2
     ⟨fun h => LapinError.noConfusion h,
      fun h => LapinError.noConfusion h,
      fun _ h => LapinError.noConfusion h⟩⟩

/-- Counterexample to C2 as stated: the ErrorKind enumeration is not
free of external library types — the AMQPError variant carries an
optional lapin::Error value. -/
theorem errorkind_external_counterexample :
    ¬ (∀ k : ErrorKind, k.carriesExternalType = false) := by
  intro h
  have hc := h (ErrorKind.AMQPError (some LapinError.ProtocolError))
  simp [ErrorKind.carriesExternalType] at hc

/-- Claim C2 (amended): exactly three variants of ErrorKind carry a
value of an external library's type — AMQPError (lapin::Error),
SerializationError (serde_json::Error) and IoError
(tokio::io::ErrorKind) — and every other variant carries only plain
strings or no payload. -/
theorem errorkind_external_characterization (k : ErrorKind) :
    k.carriesExternalType = true ↔
      (∃ e, k = ErrorKind.AMQPError e) ∨
      (∃ e, k = ErrorKind.SerializationError e) ∨
      (∃ e, k = ErrorKind.IoError e) := by
  cases k <;> simp [ErrorKind.carriesExternalType]

/-- Claim C3: for every envelope processed by the execution engine,
exactly one acknowledgment (ack or nack) is issued on its delivery tag
on every path — success, expected failure, unexpected failure, timeout,
expiration, retry, unregistered task and forced shutdown. -/
theorem ack_exactly_once (now tag : Nat) (registered forced : Bool)
    (env : Envelope) (policy : TaskPolicy) (out : HandlerOutcome) :
    countAckNack tag (runEnvelope now tag registered forced env policy out) = 1 := by
  rcases out <;>
    simp only [runEnvelope] <;>
    split_ifs <;>
    simp [countAckNack]

/-- Claim C4: the envelope codec round-trips — decoding the encoding of
any envelope reproduces the envelope with every field preserved. -/
theorem codec_round_trip (e : Envelope) : decode (encode e) = some e := by
  rcases e with ⟨id, task, args, queue, retries, expiresAt, eta, correlationId⟩
  rcases expiresAt <;> rcases eta <;> rfl

/-- Claim C5: every serialization-layer failure converts into the Error
type with the SerializationError kind carrying the underlying
serialization error, never any other kind. -/
theorem serde_error_mapping (err : SerdeJsonError) :
    (Error.fromSerdeJson err).kind = ErrorKind.SerializationError err := rfl

/-- Claim C6: every glob-pattern compilation failure converts into the
Error type with the BadRoutingRulePatternError kind, carrying the
offending pattern text when the underlying error provides one and none
otherwise. -/
theorem globset_error_mapping (err : GlobsetError) :
    (Error.fromGlobset err).kind =
      ErrorKind.BadRoutingRulePatternError err.glob := by
  rcases err with ⟨g, m⟩
  rcases g <;> rfl

/-- Claim C7: an elapsed wall-clock deadline converts into the Error
type with the TimeoutError kind, and the execution engine resolves a
timed-out handler exactly as it resolves an expected, retryable
failure, at every retry count (retry while the budget lasts, terminal
nack once it is exhausted). -/
theorem timeout_error_mapping (el : Elapsed) (now tag : Nat)
    (env : Envelope) (policy : TaskPolicy) (msg : String) :
    (Error.fromElapsed el).kind = ErrorKind.TimeoutError ∧
    runEnvelope now tag true false env policy HandlerOutcome.timedOut =
      runEnvelope now tag true false env policy (HandlerOutcome.expectedErr msg) := by
  refine ⟨rfl, ?_⟩
  simp only [runEnvelope]

/-- Claim C8: registering a task name already present in the registry
fails with the TaskAlreadyExists kind carrying the name, and looking up
a name not present fails with the UnregisteredTaskError kind carrying
the name. -/
theorem registry_duplicate_and_unregistered (r : Registry) (name : String)
    (d : TaskDef) :
    ((List.lookup name r).isSome →
      Registry.register r name d =
        Except.error (Error.fromErrorKind (ErrorKind.TaskAlreadyExists name))) ∧
    (List.lookup name r = none →
      Registry.lookupTask r name =
        Except.error (Error.fromErrorKind (ErrorKind.UnregisteredTaskError name))) := by
  constructor
  · intro h
    unfold Registry.register
    cases hl : List.lookup name r with
    | none => rw [hl] at h; simp at h
    | some d2 => rfl
  · intro h
    unfold Registry.lookupTask
    rw [h]

/-- Witness for C8: a duplicate registration and a lookup of an absent
name evaluated on a concrete one-entry registry. -/
theorem registry_duplicate_and_unregistered_witness :
    Registry.register [("add", sampleTaskDef)] "add" sampleTaskDef =
      Except.error (Error.fromErrorKind (ErrorKind.TaskAlreadyExists "add")) ∧
    Registry.lookupTask [("add", sampleTaskDef)] "mul" =
      Except.error (Error.fromErrorKind (ErrorKind.UnregisteredTaskError "mul")) :=
  ⟨(registry_duplicate_and_unregistered [("add", sampleTaskDef)] "add"
      sampleTaskDef).1 rfl,
   (registry_duplicate_and_unregistered [("add", sampleTaskDef)] "mul"
      sampleTaskDef).2 rfl⟩

/-- Claim C9: constructing an Error from any ErrorKind and reading the
kind back is the identity — the wrapper never alters the kind. -/
theorem kind_round_trip (k : ErrorKind) : (Error.fromErrorKind k).kind = k := rfl

/-- Claim C10: a string-context failure always converts into the Error
type with the UnexpectedError kind carrying exactly that string, never
any other kind. -/
theorem context_str_mapping (c : Context String) :
    (Error.fromContextStr c).kind = ErrorKind.UnexpectedError c.context := rfl

end RustyCelery
